import Mathlib

/-!
# Verification of the eShopCo latency-checker core (`src/api/index.py`)

Shallow embedding of the region-metrics calculator (`get_metrics_for_region`)
and the request dispatcher (`get_region_metrics`).  Python/pandas floats are
modelled as exact rationals (`ℚ`); Python's `round(x, n)` (round-half-to-even)
is modelled by `roundTo`; pandas' default `quantile(0.95)` (linear
interpolation, the numpy "linear" method) is modelled by `quantile095`;
Python `dict` assignment is modelled by `dictInsert` (replace in place,
append at the end when the key is new).
-/

namespace LatencyChecker

/-- One telemetry sample, as loaded by the pandas loader: a region tag plus
the two float-coerced numeric columns. -/
structure TelemetryRecord where
  region : String
  latency_ms : ℚ
  uptime_pct : ℚ
deriving DecidableEq, Repr

/-- The request body (`MetricsRequest` pydantic model): a list of region
names and an integer threshold. -/
structure MetricsRequest where
  regions : List String
  threshold_ms : ℤ
deriving DecidableEq, Repr

/-- ASCII lower-casing of a character, as Python `str.lower` acts on the
ASCII letters used for region names. -/
def lowerChar (c : Char) : Char :=
  if 65 ≤ c.toNat ∧ c.toNat ≤ 90 then Char.ofNat (c.toNat + 32) else c

/-- Python `region.lower()` on ASCII region names. -/
def lowerStr (s : String) : String :=
  String.mk (s.data.map lowerChar)

/-- Floor of a rational, computed on the numerator and denominator. -/
def ratFloor (x : ℚ) : ℤ :=
  Int.fdiv x.num x.den

/-- Ceiling of a rational, computed as the negated floor of the negation. -/
def ratCeil (x : ℚ) : ℤ :=
  -ratFloor (-x)

/-- Round-half-to-even to the nearest integer (the rounding mode of Python's
built-in `round`, banker's rounding). -/
def roundHalfEvenZ (x : ℚ) : ℤ :=
  if x - ratFloor x < 1 / 2 then ratFloor x
  else if 1 / 2 < x - ratFloor x then ratFloor x + 1
  else if ratFloor x % 2 = 0 then ratFloor x else ratFloor x + 1

/-- Python `round(x, digits)`: round-half-to-even to `digits` decimal
places. -/
def roundTo (digits : ℕ) (x : ℚ) : ℚ :=
  (roundHalfEvenZ (x * 10 ^ digits) : ℚ) / 10 ^ digits

/-- Insert `x` into an already-sorted list, keeping it sorted ascending. -/
def insertSorted (x : ℚ) : List ℚ → List ℚ
  | [] => [x]
  | y :: ys => if x ≤ y then x :: y :: ys else y :: insertSorted x ys

/-- Ascending sort of the latency column, as numpy sorts the values before
quantile interpolation. -/
def sortList : List ℚ → List ℚ
  | [] => []
  | x :: xs => insertSorted x (sortList xs)

/-- The fractional rank used by the numpy/pandas "linear" quantile method at
q = 0.95: `h = 0.95 * (n - 1)` for `n` values. -/
def qIndex (values : List ℚ) : ℚ :=
  (95 / 100) * ((values.length : ℚ) - 1)

/-- `region_df['latency_ms'].quantile(0.95)` with pandas' default linear
interpolation: sort, take the values at positions `⌊h⌋` and `⌈h⌉`, and add
the fraction `h - ⌊h⌋` of their difference to the lower one. -/
def quantile095 (values : List ℚ) : ℚ :=
  (sortList values).getD (ratFloor (qIndex values)).toNat 0
    + (qIndex values - (ratFloor (qIndex values) : ℚ))
      * ((sortList values).getD (ratCeil (qIndex values)).toNat 0
          - (sortList values).getD (ratFloor (qIndex values)).toNat 0)

/-- The mean of a column, `series.mean() = sum / n`. -/
def listMean (l : List ℚ) : ℚ :=
  l.sum / (l.length : ℚ)

/-- The computed summary returned for one region. -/
structure RegionMetrics where
  avg_latency : ℚ
  p95_latency : ℚ
  avg_uptime : ℚ
  breaches : ℕ
deriving DecidableEq, Repr

/-- `get_metrics_for_region(region_df, threshold)`: mean latency, p95 by
linear interpolation, strict-inequality breach count, and mean uptime
converted to a fraction, with the final per-field rounding. -/
def get_metrics_for_region (region_df : List TelemetryRecord) (threshold : ℤ) :
    RegionMetrics where
  avg_latency := roundTo 2 (listMean (region_df.map (·.latency_ms)))
  p95_latency := roundTo 2 (quantile095 (region_df.map (·.latency_ms)))
  avg_uptime := roundTo 4 (listMean (region_df.map (·.uptime_pct)) / 100)
  breaches := region_df.countP (fun r => decide ((threshold : ℚ) < r.latency_ms))

/-- One entry of the response map: either a metrics object or the
`{"error": ...}` marker. -/
inductive RegionResult where
  | metrics (m : RegionMetrics)
  | failure (msg : String)
deriving DecidableEq, Repr

/-- A single-quote character, for building the error message text. -/
def sq : String :=
  String.singleton (Char.ofNat 39)

/-- The message `No data found for region '<name>'` produced for an empty
selection. -/
def noDataMsg (region : String) : String :=
  "No data found for region " ++ sq ++ region ++ sq

/-- Python `results[region] = v` on a dict kept as an insertion-ordered
association list: overwrite in place when the key exists, append when it is
new. -/
def dictInsert (k : String) (v : RegionResult) :
    List (String × RegionResult) → List (String × RegionResult)
  | [] => [(k, v)]
  | (k', v') :: rest =>
      if k' = k then (k, v) :: rest else (k', v') :: dictInsert k v rest

/-- The value stored under one requested region: filter the dataset on the
lower-cased name; an empty selection yields the error marker, otherwise the
calculator runs on the selection. -/
def valueFor (df : List TelemetryRecord) (threshold : ℤ) (region : String) :
    RegionResult :=
  if (df.filter (fun r => decide (r.region = lowerStr region))).isEmpty then
    RegionResult.failure (noDataMsg region)
  else
    RegionResult.metrics
      (get_metrics_for_region
        (df.filter (fun r => decide (r.region = lowerStr region))) threshold)

/-- The outcome of one call to the POST endpoint: either the HTTPException
raised when the dataset is unavailable, or the assembled result map. -/
inductive DispatchResult where
  | httpFailure (status_code : ℕ) (detail : String)
  | ok (results : List (String × RegionResult))
deriving DecidableEq, Repr

/-- `get_region_metrics(request)` with the process-wide dataset passed
explicitly: reject every call with the 500 HTTPException when loading
failed, otherwise fold the per-region loop over an empty dict. -/
def get_region_metrics (df_full : Option (List TelemetryRecord))
    (request : MetricsRequest) : DispatchResult :=
  match df_full with
  | none =>
      DispatchResult.httpFailure 500 "Data loading failed. Check telemetry.json path."
  | some df =>
      DispatchResult.ok
        (request.regions.foldl
          (fun results region =>
            dictInsert region (valueFor df request.threshold_ms region) results)
          [])

/-- The possible outcomes of the startup loader: the two handled exception
classes, or a parsed record list. -/
inductive LoadOutcome where
  | fileNotFound
  | jsonDecodeError
  | loaded (records : List TelemetryRecord)
deriving DecidableEq, Repr

/-- The module-level `try/except`: both failure modes leave `df_full = None`
instead of propagating, a successful parse stores the records. -/
def loadDataset : LoadOutcome → Option (List TelemetryRecord)
  | LoadOutcome.fileNotFound => none
  | LoadOutcome.jsonDecodeError => none
  | LoadOutcome.loaded records => some records

/-- First lookup by key in the result map, Python `results[region]`. -/
def lookupKey (k : String) : List (String × RegionResult) → Option RegionResult
  | [] => none
  | (k', v) :: rest => if k' = k then some v else lookupKey k rest

/-- Number of entries of the result map stored under a given key. -/
def countKey (k : String) (l : List (String × RegionResult)) : ℕ :=
  l.countP (fun p => decide (p.1 = k))

/-- The spec's own wording of the 0.95 quantile: with `h = 0.95 * (n - 1)`,
linearly interpolate between the sorted values at the 0-indexed positions
`⌊h⌋` and `⌈h⌉`. -/
def p95SpecInterp (values : List ℚ) : ℚ :=
  (1 - (qIndex values - (⌊qIndex values⌋ : ℚ)))
      * (sortList values).getD (⌊qIndex values⌋).toNat 0
    + (qIndex values - (⌊qIndex values⌋ : ℚ))
      * (sortList values).getD (⌈qIndex values⌉).toNat 0

section

attribute [local semireducible] Rat.mul Rat.inv Rat.add Rat.sub

theorem ratFloor_eq (x : ℚ) : ratFloor x = ⌊x⌋ := by
  rw [ratFloor, Int.fdiv_eq_ediv x.num (by exact_mod_cast Nat.zero_le x.den),
    Rat.floor_def]

theorem ratCeil_eq (x : ℚ) : ratCeil x = ⌈x⌉ := by
  rw [ratCeil, ratFloor_eq, Int.floor_neg, neg_neg]

theorem lookupKey_dictInsert (k r : String) (v : RegionResult)
    (l : List (String × RegionResult)) :
    lookupKey k (dictInsert r v l) = if r = k then some v else lookupKey k l := by
  induction l with
  | nil => simp [dictInsert, lookupKey]
  | cons p rest ih =>
    obtain ⟨k', v'⟩ := p
    by_cases h1 : k' = r
    · by_cases h2 : r = k
      · have hk : k' = k := h1.trans h2
        simp [dictInsert, lookupKey, h1, h2, hk]
      · have hk : ¬ k' = k := fun h => h2 (h1.symm.trans h)
        simp [dictInsert, lookupKey, h1, h2, hk]
    · by_cases h2 : k' = k
      · have hkr : ¬ k = r := fun h => h1 (h2.trans h)
        have hr : ¬ r = k := fun h => hkr h.symm
        simp [dictInsert, lookupKey, h1, h2, hr, hkr]
      · simp [dictInsert, lookupKey, h1, h2, ih]

theorem countKey_dictInsert (k r : String) (v : RegionResult)
    (l : List (String × RegionResult)) :
    countKey k (dictInsert r v l) =
      if r = k then max (countKey k l) 1 else countKey k l := by
  induction l with
  | nil =>
    by_cases h : r = k <;> simp [dictInsert, countKey, h]
  | cons p rest ih =>
    obtain ⟨k', v'⟩ := p
    by_cases h1 : k' = r
    · by_cases h2 : r = k
      · have hk : k' = k := h1.trans h2
        simp [dictInsert, countKey, List.countP_cons, h1, h2, hk]
      · have hk : ¬ k' = k := fun h => h2 (h1.symm.trans h)
        simp [dictInsert, countKey, List.countP_cons, h1, h2, hk]
    · have ih' : (dictInsert r v rest).countP (fun p => decide (p.1 = k)) =
          if r = k then max (rest.countP (fun p => decide (p.1 = k))) 1
          else rest.countP (fun p => decide (p.1 = k)) := ih
      by_cases h2 : k' = k
      · have hkr : ¬ k = r := fun h => h1 (h2.trans h)
        have hr : ¬ r = k := fun h => hkr h.symm
        simp [dictInsert, countKey, List.countP_cons, h1, h2, hr, hkr, ih']
      · simp only [dictInsert, if_neg h1, countKey, List.countP_cons, ih']
        simp [h2]

theorem lookupKey_fold (df : List TelemetryRecord) (t : ℤ) (regions : List String)
    (acc : List (String × RegionResult)) (k : String) :
    lookupKey k
        (regions.foldl
          (fun results region => dictInsert region (valueFor df t region) results)
          acc) =
      if k ∈ regions then some (valueFor df t k) else lookupKey k acc := by
  induction regions generalizing acc with
  | nil => simp
  | cons r rs ih =>
    simp only [List.foldl_cons, ih, lookupKey_dictInsert, List.mem_cons]
    by_cases h1 : k ∈ rs
    · simp [h1]
    · by_cases h2 : k = r
      · subst h2
        simp [h1]
      · have h2' : ¬ r = k := fun h => h2 h.symm
        simp [h1, h2, h2']

theorem countKey_fold (df : List TelemetryRecord) (t : ℤ) (regions : List String)
    (acc : List (String × RegionResult)) (k : String) :
    countKey k
        (regions.foldl
          (fun results region => dictInsert region (valueFor df t region) results)
          acc) =
      if k ∈ regions then max (countKey k acc) 1 else countKey k acc := by
  induction regions generalizing acc with
  | nil => simp
  | cons r rs ih =>
    simp only [List.foldl_cons, ih, countKey_dictInsert, List.mem_cons]
    by_cases h1 : k ∈ rs
    · by_cases h2 : r = k
      · simp only [h1, if_true, h2, List.mem_cons, or_true]
        omega
      · simp [h1, h2]
    · by_cases h2 : k = r
      · subst h2
        simp [h1]
      · have h2' : ¬ r = k := fun h => h2 h.symm
        simp [h1, h2, h2']

theorem get_region_metrics_some (df : List TelemetryRecord) (req : MetricsRequest) :
    get_region_metrics (some df) req =
      DispatchResult.ok
        (req.regions.foldl
          (fun results region =>
            dictInsert region (valueFor df req.threshold_ms region) results)
          []) := rfl

/-- C1: for every non-empty record list, the p95 produced by the calculator
is, before its final 2-decimal rounding, exactly the 0.95 quantile of the
latency values by the linear-interpolation rule of the spec (sort, take
`h = 0.95 * (n - 1)`, interpolate between the values at positions `⌊h⌋` and
`⌈h⌉`). -/
theorem p95_is_linear_quantile (records : List TelemetryRecord) (t : ℤ)
    (h : records ≠ []) :
    quantile095 (records.map (·.latency_ms)) =
        p95SpecInterp (records.map (·.latency_ms)) ∧
    (get_metrics_for_region records t).p95_latency =
      roundTo 2 (p95SpecInterp (records.map (·.latency_ms))) := by
  have key : ∀ values : List ℚ, quantile095 values = p95SpecInterp values := by
    intro values
    simp only [quantile095, p95SpecInterp, ratFloor_eq, ratCeil_eq]
    ring
  exact ⟨key _, by simp only [get_metrics_for_region, key]⟩

theorem p95_is_linear_quantile_witness :
    (([⟨"us", 100, 199 / 2⟩, ⟨"us", 200, 99⟩] : List TelemetryRecord) ≠ []) ∧
    (quantile095
          (([⟨"us", 100, 199 / 2⟩, ⟨"us", 200, 99⟩] :
            List TelemetryRecord).map (·.latency_ms)) =
        p95SpecInterp
          (([⟨"us", 100, 199 / 2⟩, ⟨"us", 200, 99⟩] :
            List TelemetryRecord).map (·.latency_ms)) ∧
      (get_metrics_for_region
            [⟨"us", 100, 199 / 2⟩, ⟨"us", 200, 99⟩] 150).p95_latency =
        roundTo 2
          (p95SpecInterp
            (([⟨"us", 100, 199 / 2⟩, ⟨"us", 200, 99⟩] :
              List TelemetryRecord).map (·.latency_ms)))) :=
  ⟨by simp, p95_is_linear_quantile [⟨"us", 100, 199 / 2⟩, ⟨"us", 200, 99⟩] 150 (by simp)⟩

/-- C2: on the dataset `[{us, 100, 99.5}, {us, 200, 99.0}]` with request
`{regions: [us], threshold_ms: 150}` the dispatcher returns exactly
`{us: {avg_latency: 150.0, p95_latency: 195.0, avg_uptime: 0.9925,
breaches: 1}}`. -/
theorem example_us_request_result :
    get_region_metrics
        (some [⟨"us", 100, 199 / 2⟩, ⟨"us", 200, 99⟩])
        ⟨["us"], 150⟩ =
      DispatchResult.ok
        [("us", RegionResult.metrics ⟨150, 195, 9925 / 10000, 1⟩)] := by
  decide

/-- C3: for every non-empty record list and every threshold, `breaches` is
the number of records whose latency strictly exceeds the threshold, and
appending a record whose latency equals the threshold exactly leaves the
count unchanged. -/
theorem breaches_strict_count (records : List TelemetryRecord) (t : ℤ)
    (h : records ≠ []) :
    (get_metrics_for_region records t).breaches =
        records.countP (fun r => decide ((t : ℚ) < r.latency_ms)) ∧
    ∀ rec : TelemetryRecord, rec.latency_ms = (t : ℚ) →
      (get_metrics_for_region (records ++ [rec]) t).breaches =
        (get_metrics_for_region records t).breaches := by
  refine ⟨rfl, fun rec hrec => ?_⟩
  simp [get_metrics_for_region, List.countP_append, List.countP_cons, hrec]

theorem breaches_strict_count_witness :
    (([⟨"us", 100, 99⟩] : List TelemetryRecord) ≠ []) ∧
    ((get_metrics_for_region [⟨"us", 100, 99⟩] 150).breaches =
        ([⟨"us", 100, 99⟩] : List TelemetryRecord).countP
          (fun r => decide (((150 : ℤ) : ℚ) < r.latency_ms)) ∧
      ∀ rec : TelemetryRecord, rec.latency_ms = ((150 : ℤ) : ℚ) →
        (get_metrics_for_region ([⟨"us", 100, 99⟩] ++ [rec]) 150).breaches =
          (get_metrics_for_region [⟨"us", 100, 99⟩] 150).breaches) :=
  ⟨by simp, breaches_strict_count [⟨"us", 100, 99⟩] 150 (by simp)⟩

/-- C4: for every non-empty record list, `avg_latency` is the arithmetic
mean of the latencies and `avg_uptime` the mean uptime percentage divided
by 100, each value rounded exactly once at the end with round-half-to-even
(2 decimals for the latencies, 4 for the uptime fraction); the final two
conjuncts exhibit the half-to-even ties (100.5 hundredths rounds down to an
even 100, 101.5 hundredths rounds up to an even 102). -/
theorem single_final_rounding (records : List TelemetryRecord) (t : ℤ)
    (h : records ≠ []) :
    (get_metrics_for_region records t).avg_latency =
        roundTo 2 ((records.map (·.latency_ms)).sum / (records.length : ℚ)) ∧
    (get_metrics_for_region records t).avg_uptime =
        roundTo 4
          ((records.map (·.uptime_pct)).sum / (records.length : ℚ) / 100) ∧
    (get_metrics_for_region records t).p95_latency =
        roundTo 2 (quantile095 (records.map (·.latency_ms))) ∧
    roundTo 2 (201 / 200) = 1 ∧ roundTo 2 (203 / 200) = 51 / 50 := by
  refine ⟨?_, ?_, rfl, by decide, by decide⟩
  · simp [get_metrics_for_region, listMean]
  · simp [get_metrics_for_region, listMean]

theorem single_final_rounding_witness :
    (([⟨"us", 100, 99⟩] : List TelemetryRecord) ≠ []) ∧
    ((get_metrics_for_region [⟨"us", 100, 99⟩] 150).avg_latency =
        roundTo 2
          ((([⟨"us", 100, 99⟩] : List TelemetryRecord).map (·.latency_ms)).sum /
            (([⟨"us", 100, 99⟩] : List TelemetryRecord).length : ℚ)) ∧
      (get_metrics_for_region [⟨"us", 100, 99⟩] 150).avg_uptime =
        roundTo 4
          ((([⟨"us", 100, 99⟩] : List TelemetryRecord).map (·.uptime_pct)).sum /
            (([⟨"us", 100, 99⟩] : List TelemetryRecord).length : ℚ) / 100) ∧
      (get_metrics_for_region [⟨"us", 100, 99⟩] 150).p95_latency =
        roundTo 2
          (quantile095
            (([⟨"us", 100, 99⟩] : List TelemetryRecord).map (·.latency_ms))) ∧
      roundTo 2 (201 / 200) = 1 ∧ roundTo 2 (203 / 200) = 51 / 50) :=
  ⟨by simp, single_final_rounding [⟨"us", 100, 99⟩] 150 (by simp)⟩

/-- C5 counterexample: the record stored as `US` is equal to the requested
name `us` ignoring case, yet the dispatcher matches nothing and returns the
no-data marker, so matching is not case-insensitive on the stored side. -/
theorem case_insensitive_matching_cx :
    lowerStr "US" = lowerStr "us" ∧
    get_region_metrics (some [⟨"US", 100, 99⟩]) ⟨["us"], 150⟩ =
      DispatchResult.ok [("us", RegionResult.failure (noDataMsg "us"))] :=
  ⟨by decide, by decide⟩

/-- C5 (amended): matching lower-cases only the requested name and compares
it for exact equality with the stored identifier — case-insensitive in the
request whenever the stored identifiers are already lowercase — and the
caller's original spelling is the result key and appears in the error
message. -/
theorem request_lowercased_matching (df : List TelemetryRecord) (t : ℤ)
    (regions : List String) (region : String) (h : region ∈ regions) :
    ∃ m, get_region_metrics (some df) ⟨regions, t⟩ = DispatchResult.ok m ∧
      lookupKey region m =
        some
          (if (df.filter (fun r => decide (r.region = lowerStr region))).isEmpty then
            RegionResult.failure
              ("No data found for region " ++ sq ++ region ++ sq)
          else
            RegionResult.metrics
              (get_metrics_for_region
                (df.filter (fun r => decide (r.region = lowerStr region))) t)) ∧
      ∀ rec : TelemetryRecord, rec.region = lowerStr rec.region →
        ((rec.region = lowerStr region) ↔
          (lowerStr rec.region = lowerStr region)) := by
  refine ⟨_, get_region_metrics_some df ⟨regions, t⟩, ?_, ?_⟩
  · rw [lookupKey_fold]
    simp only [h, if_true]
    rfl
  · intro rec hrec
    exact ⟨fun h2 => hrec.symm.trans h2, fun h2 => hrec.trans h2⟩

theorem request_lowercased_matching_witness :
    (("US-EAST" : String) ∈ (["US-EAST"] : List String)) ∧
    (∃ m,
      get_region_metrics (some [⟨"us-east", 100, 99⟩]) ⟨["US-EAST"], 150⟩ =
          DispatchResult.ok m ∧
        lookupKey "US-EAST" m =
          some
            (if (([⟨"us-east", 100, 99⟩] : List TelemetryRecord).filter
                  (fun r => decide (r.region = lowerStr "US-EAST"))).isEmpty then
              RegionResult.failure
                ("No data found for region " ++ sq ++ "US-EAST" ++ sq)
            else
              RegionResult.metrics
                (get_metrics_for_region
                  (([⟨"us-east", 100, 99⟩] : List TelemetryRecord).filter
                    (fun r => decide (r.region = lowerStr "US-EAST"))) 150)) ∧
        ∀ rec : TelemetryRecord, rec.region = lowerStr rec.region →
          ((rec.region = lowerStr "US-EAST") ↔
            (lowerStr rec.region = lowerStr "US-EAST"))) :=
  ⟨by decide,
    request_lowercased_matching [⟨"us-east", 100, 99⟩] 150 ["US-EAST"] "US-EAST"
      (by decide)⟩

/-- C6: a requested region with zero matching records never fails the call:
the dispatcher still returns a result map, that region's entry is exactly
the error marker with the original spelling inside the message, and every
other requested region's entry coincides with what a singleton request for
it would produce. -/
theorem missing_region_isolated (df : List TelemetryRecord) (t : ℤ)
    (regions : List String) (region : String) (hmem : region ∈ regions)
    (hempty : df.filter (fun r => decide (r.region = lowerStr region)) = []) :
    ∃ m, get_region_metrics (some df) ⟨regions, t⟩ = DispatchResult.ok m ∧
      lookupKey region m = some (RegionResult.failure (noDataMsg region)) ∧
      ∀ other ∈ regions, ∃ m1,
        get_region_metrics (some df) ⟨[other], t⟩ = DispatchResult.ok m1 ∧
        lookupKey other m = lookupKey other m1 := by
  refine ⟨_, get_region_metrics_some df ⟨regions, t⟩, ?_, ?_⟩
  · rw [lookupKey_fold]
    simp [hmem, valueFor, hempty]
  · intro other hother
    refine ⟨_, get_region_metrics_some df ⟨[other], t⟩, ?_⟩
    rw [lookupKey_fold, lookupKey_fold]
    simp [hother]

theorem missing_region_isolated_witness :
    (("us" : String) ∈ (["us", "eu"] : List String)) ∧
    (([⟨"eu", 120, 98⟩] : List TelemetryRecord).filter
        (fun r => decide (r.region = lowerStr "us")) = []) ∧
    (∃ m,
      get_region_metrics (some [⟨"eu", 120, 98⟩]) ⟨["us", "eu"], 150⟩ =
          DispatchResult.ok m ∧
        lookupKey "us" m = some (RegionResult.failure (noDataMsg "us")) ∧
        ∀ other ∈ (["us", "eu"] : List String), ∃ m1,
          get_region_metrics (some [⟨"eu", 120, 98⟩]) ⟨[other], 150⟩ =
              DispatchResult.ok m1 ∧
          lookupKey other m = lookupKey other m1) :=
  ⟨by decide, by decide,
    missing_region_isolated [⟨"eu", 120, 98⟩] 150 ["us", "eu"] "us"
      (by decide) (by decide)⟩

/-- C7: when the startup loader hit either handled failure (file absent or
invalid JSON) it stores the `None` sentinel instead of crashing, and every
subsequent dispatcher call is rejected with the fixed 500 failure before
any per-region computation. -/
theorem load_failure_rejects_all (outcome : LoadOutcome)
    (h : outcome = LoadOutcome.fileNotFound ∨
      outcome = LoadOutcome.jsonDecodeError) :
    loadDataset outcome = none ∧
    ∀ req : MetricsRequest,
      get_region_metrics (loadDataset outcome) req =
        DispatchResult.httpFailure 500
          "Data loading failed. Check telemetry.json path." := by
  rcases h with h | h <;> subst h <;> exact ⟨rfl, fun req => rfl⟩

theorem load_failure_rejects_all_witness :
    (LoadOutcome.fileNotFound = LoadOutcome.fileNotFound ∨
      LoadOutcome.fileNotFound = LoadOutcome.jsonDecodeError) ∧
    (loadDataset LoadOutcome.fileNotFound = none ∧
      ∀ req : MetricsRequest,
        get_region_metrics (loadDataset LoadOutcome.fileNotFound) req =
          DispatchResult.httpFailure 500
            "Data loading failed. Check telemetry.json path.") :=
  ⟨Or.inl rfl, load_failure_rejects_all LoadOutcome.fileNotFound (Or.inl rfl)⟩

/-- C8: when a region name occurs more than once in the request, the result
map holds exactly one entry under that key and its value is what a request
for that region alone would produce. -/
theorem duplicate_region_last_write (df : List TelemetryRecord) (t : ℤ)
    (regions : List String) (region : String)
    (h : 1 < regions.count region) :
    ∃ m v, get_region_metrics (some df) ⟨regions, t⟩ = DispatchResult.ok m ∧
      countKey region m = 1 ∧
      lookupKey region m = some v ∧
      get_region_metrics (some df) ⟨[region], t⟩ =
        DispatchResult.ok [(region, v)] := by
  have hmem : region ∈ regions := List.count_pos_iff.mp (by omega)
  refine ⟨_, valueFor df t region,
    get_region_metrics_some df ⟨regions, t⟩, ?_, ?_, rfl⟩
  · rw [countKey_fold]
    simp [hmem, countKey]
  · rw [lookupKey_fold]
    simp [hmem]

theorem duplicate_region_last_write_witness :
    (1 < (["us", "us"] : List String).count "us") ∧
    (∃ m v,
      get_region_metrics (some [⟨"us", 100, 99⟩]) ⟨["us", "us"], 150⟩ =
          DispatchResult.ok m ∧
        countKey "us" m = 1 ∧
        lookupKey "us" m = some v ∧
        get_region_metrics (some [⟨"us", 100, 99⟩]) ⟨["us"], 150⟩ =
          DispatchResult.ok [("us", v)]) :=
  ⟨by decide,
    duplicate_region_last_write [⟨"us", 100, 99⟩] 150 ["us", "us"] "us"
      (by decide)⟩

/-- C9: for a fixed non-empty record list the breach count is antitone in
the threshold: raising the threshold never increases it. -/
theorem breaches_antitone (records : List TelemetryRecord)
    (h : records ≠ []) (t1 t2 : ℤ) (hle : t1 ≤ t2) :
    (get_metrics_for_region records t2).breaches ≤
      (get_metrics_for_region records t1).breaches := by
  simp only [get_metrics_for_region]
  apply List.countP_mono_left
  intro r hr hp
  simp only [decide_eq_true_eq] at hp ⊢
  exact lt_of_le_of_lt (by exact_mod_cast hle) hp

theorem breaches_antitone_witness :
    (([⟨"us", 100, 99⟩] : List TelemetryRecord) ≠ []) ∧ ((50 : ℤ) ≤ 150) ∧
    (get_metrics_for_region [⟨"us", 100, 99⟩] 150).breaches ≤
      (get_metrics_for_region [⟨"us", 100, 99⟩] 50).breaches :=
  ⟨by simp, by decide,
    breaches_antitone [⟨"us", 100, 99⟩] (by simp) 50 150 (by decide)⟩

/-- C10: with a loaded dataset, a request whose region list is empty
succeeds and produces the empty result map. -/
theorem empty_request_empty_result (df : List TelemetryRecord) (t : ℤ) :
    get_region_metrics (some df) ⟨[], t⟩ = DispatchResult.ok [] := rfl

end

end LatencyChecker
